import Mathlib

/-!
Shallow embedding of the tag-to-alarm compiler in `src/actions.py` of the
cloudwatch-auto-alarms repository.  Pure string manipulation (splitting tag
keys on hyphens, substring tests, the unit/number parsers) is translated
directly; the boto3 calls are replaced by explicit parameters (the image
record returned by describe_images, the alarm store's per-alarm put outcome,
the list of existing alarm names) and by an explicit list of issued put
calls in the result.  Python exceptions are modelled with `Except String`:
an uncaught exception is `Except.error`, carrying the logged/raised message.
-/

namespace AutoAlarms

/-- Boolean test that `pre` is a leading segment of `l` (character lists). -/
def listLeads : List Char → List Char → Bool
  | [], _ => true
  | _ :: _, [] => false
  | a :: as, b :: bs => a == b && listLeads as bs

/-- Boolean substring test on character lists: does `l` contain `sub`?
Models the Python `sub in s` operator on strings. -/
def listHasSub (sub : List Char) : List Char → Bool
  | [] => listLeads sub []
  | c :: cs => listLeads sub (c :: cs) || listHasSub sub cs

/-- Python `sub in s` substring containment on strings. -/
def strContains (s sub : String) : Bool := listHasSub sub.data s.data

/-- Python `s.startswith(pre)`. -/
def strStartsWith (s pre : String) : Bool := listLeads pre.data s.data

/-- Python `s.lower()` (ASCII model, via `Char.toLower`). -/
def strLower (s : String) : String := ⟨s.data.map Char.toLower⟩

/-- Helper for `splitDash`: accumulates the current token (reversed). -/
def splitDashAux (acc : List Char) : List Char → List String
  | [] => [⟨acc.reverse⟩]
  | c :: cs => if c == '-' then ⟨acc.reverse⟩ :: splitDashAux [] cs else splitDashAux (c :: acc) cs

/-- Python `s.split('-')`: splits on every hyphen, keeping empty tokens. -/
def splitDash (s : String) : List String := splitDashAux [] s.data

/-- Nonempty all-ASCII-digit test, the shape accepted by Python `int` after a sign. -/
def allDigits (l : List Char) : Bool := !l.isEmpty && l.all Char.isDigit

/-- Numeric value of a digit list. -/
def natOfDigits (l : List Char) : Nat := l.foldl (fun a c => a * 10 + (c.toNat - 48)) 0

/-- Python `int(s)` on a trimmed decimal string: optional sign followed by
digits; anything else raises `ValueError`, modelled as `none`. -/
def pyInt : List Char → Option Int
  | '-' :: r => if allDigits r then some (-(natOfDigits r : Int)) else none
  | '+' :: r => if allDigits r then some ((natOfDigits r : Int)) else none
  | l => if allDigits l then some ((natOfDigits l : Int)) else none

/-- Optional decimal exponent tail of a float literal (`e`/`E`, sign, digits). -/
def expTailOk : List Char → Bool
  | [] => true
  | 'e' :: '-' :: r => allDigits r
  | 'e' :: '+' :: r => allDigits r
  | 'e' :: r => allDigits r
  | 'E' :: '-' :: r => allDigits r
  | 'E' :: '+' :: r => allDigits r
  | 'E' :: r => allDigits r
  | _ => false

/-- Tail of a float literal after the integer digits: optional fraction then
optional exponent.  `intNonEmpty` records whether integer digits were seen. -/
def fracExpOk (intNonEmpty : Bool) : List Char → Bool
  | [] => intNonEmpty
  | '.' :: r =>
    let frac := r.takeWhile Char.isDigit
    let rest := r.dropWhile Char.isDigit
    (intNonEmpty || !frac.isEmpty) && expTailOk rest
  | l => intNonEmpty && expTailOk l

/-- Python `float(s)` success test on plain decimal literals: optional sign,
digits with optional fraction and exponent (`inf`, `nan`, whitespace and
underscore separators are outside the modelled subset). -/
def pyFloatOk (s : String) : Bool :=
  let l :=
    match s.data with
    | '-' :: r => r
    | '+' :: r => r
    | l => l
  let intPart := l.takeWhile Char.isDigit
  let rest := l.dropWhile Char.isDigit
  fracExpOk (!intPart.isEmpty) rest

/-- First-match lookup in an association list, Python `d[k]` / `d.get(k)`. -/
def assocGet {α : Type} (l : List (String × α)) (k : String) : Option α :=
  (l.find? (fun p => p.1 == k)).map (fun p => p.2)

/-- Replace the value stored at an existing key of an association list. -/
def assocSet {α : Type} : List (String × α) → String → α → List (String × α)
  | [], _, _ => []
  | (k0, v0) :: rest, k, v =>
    if k0 == k then (k0, v) :: rest else (k0, v0) :: assocSet rest k v

/-- Python `tags.get(key, default)` on a string-valued tag dictionary. -/
def dictGet (tags : List (String × String)) (k d : String) : String :=
  match tags.find? (fun p => p.1 == k) with
  | some p => p.2
  | none => d

/-- The module-level `valid_comparators` list of `actions.py`. -/
def valid_comparators : List String :=
  ["GreaterThanOrEqualToThreshold", "GreaterThanThreshold", "LessThanThreshold",
   "LessThanOrEqualToThreshold"]

/-- An EC2/Lambda resource tag (`{'Key': ..., 'Value': ...}`). -/
structure Tag where
  Key : String
  Value : String
  deriving DecidableEq

/-- The fields of a describe_images record read by `determine_platform`. -/
structure ImageRec where
  PlatformDetails : String
  Name : String
  Description : String
  deriving DecidableEq

/-- The fields of the instance record used by `process_alarm_tags`:
its tag list, its image id, and the scalar attributes read through
`instance_info.get(...)` (modelled as an association list). -/
structure InstanceInfo where
  Tags : List Tag
  ImageId : String
  attrs : List (String × String)
  deriving DecidableEq

/-- The caller-owned `default_alarms` mapping.  Modelled from the spec for the
configuration shape (the dictionary itself is built outside `actions.py`):
a list entry under key `AWS/EC2`, a list entry under key `AWS/Lambda`, and a
platform-keyed dictionary of lists under the agent namespace key. -/
structure DefaultAlarms where
  ec2 : List Tag
  awsLambda : List Tag
  agent : List (String × List Tag)
  deriving DecidableEq

/-- The `Period` entry of the alarm dictionary sent to put_metric_alarm: the
converted number of seconds on success, the unconverted string when
`convert_to_seconds` raised (the except branch logs and falls through). -/
inductive PVal where
  | secs (n : Int)
  | raw (s : String)
  deriving DecidableEq

/-- One attempted put_metric_alarm call, recording the arguments given to
`create_alarm` (`PeriodArg`, `Threshold`) and the alarm dictionary fields. -/
structure PutCall where
  AlarmName : String
  MetricName : String
  ComparisonOperator : String
  Statistic : String
  Nspace : String
  Threshold : String
  PeriodArg : String
  Period : PVal
  Dimensions : List (String × String)
  AlarmActions : List String
  deriving DecidableEq

/-- The observable outcome of one `create_alarm` call: the put calls it
attempted and the log lines it wrote. -/
structure CreateRes where
  puts : List PutCall
  logs : List String
  deriving DecidableEq

/-- `convert_to_seconds` (`actions.py` lines 270-278): `int(s[:-1])` times the
unit value of the final character; any failure (empty string, unknown unit,
non-numeric magnitude) raises, modelled as `none`. -/
def convert_to_seconds (s : String) : Option Int :=
  match s.data.getLast? with
  | none => none
  | some u =>
    let unit : Option Nat :=
      if u == 's' then some 1
      else if u == 'm' then some 60
      else if u == 'h' then some 3600
      else if u == 'd' then some 86400
      else if u == 'w' then some 604800
      else none
    match unit, pyInt s.data.dropLast with
    | some m, some n => some (n * m)
    | _, _ => none

/-- `determine_platform` (`actions.py` lines 231-267).  The describe_images
response is passed in as `image` (`none` models an empty `Images` list); the
classification chain over `PlatformDetails`, `Description` and `Name` is
translated branch for branch. -/
def determine_platform (image : Option ImageRec) : Option String :=
  match image with
  | none => none
  | some img =>
    let pd := img.PlatformDetails
    if strContains pd "Windows" || strContains pd "SQL Server" then some "Windows"
    else if strContains pd "Red Hat" then some "Red Hat"
    else if strContains pd "SUSE" then some "SUSE"
    else if strContains pd "Linux/UNIX" then
      if strContains (strLower img.Description) "ubuntu" || strContains (strLower img.Name) "ubuntu" then
        some "Ubuntu"
      else some "Amazon Linux"
    else none

/-- `create_alarm` (`actions.py` lines 283-323).  `putOk` gives the alarm
store's response to the put call for a given alarm name; a store failure is
caught and logged.  The period conversion failure is caught, logged and falls
through with the raw string; the `float(Threshold)` conversion is outside any
try block, so its failure is an uncaught error. -/
def create_alarm (putOk : String → Bool) (AlarmName MetricName ComparisonOperator Period Threshold Statistic Nspace : String)
    (Dimensions : List (String × String)) (sns_topic_arn : Option String) : Except String CreateRes :=
  let convLog : List String :=
    match convert_to_seconds Period with
    | some _ => []
    | none => ["Error converting Period specified to seconds for Alarm " ++ AlarmName]
  let periodVal : PVal :=
    match convert_to_seconds Period with
    | some n => PVal.secs n
    | none => PVal.raw Period
  if pyFloatOk Threshold then
    let call : PutCall :=
      { AlarmName := AlarmName, MetricName := MetricName,
        ComparisonOperator := ComparisonOperator, Statistic := Statistic,
        Nspace := Nspace, Threshold := Threshold, PeriodArg := Period,
        Period := periodVal, Dimensions := Dimensions,
        AlarmActions := match sns_topic_arn with | some a => [a] | none => [] }
    let putLog : String :=
      if putOk AlarmName then "Created alarm " ++ AlarmName
      else "Error creating alarm " ++ AlarmName
    Except.ok { puts := [call], logs := convLog ++ [putLog] }
  else
    Except.error ("could not convert string to float: " ++ Threshold)

/-- Body of the fixed-arity AWS/EC2 loop of `process_alarm_tags`
(`actions.py` lines 146-158): positional fields 1-5 of the split key, and an
alarm name that interpolates the tag value between the comparison operator
and the period. -/
def ec2TagBody (putOk : String → Bool) (instance_id : String)
    (dimensions : List (String × String)) (sns : Option String) (t : Tag) : Except String CreateRes :=
  let props := splitDash t.Key
  match props.get? 1, props.get? 2, props.get? 3, props.get? 4, props.get? 5 with
  | some Nspace, some MetricName, some ComparisonOperator, some Period, some Statistic =>
    let AlarmName := "AutoAlarm-" ++ instance_id ++ "-" ++ Nspace ++ "-" ++ MetricName ++ "-"
      ++ ComparisonOperator ++ "-" ++ t.Value ++ "-" ++ Period
    create_alarm putOk AlarmName MetricName ComparisonOperator Period t.Value Statistic Nspace dimensions sns
  | _, _, _, _, _ => Except.error "list index out of range"

/-- Body of the per-tag loop of `process_lambda_alarms` (`actions.py` lines
101-113): positional fields 1-5 and the documented alarm name order. -/
def lambdaTagBody (putOk : String → Bool) (function_name : String)
    (dimensions : List (String × String)) (sns : Option String) (t : Tag) : Except String CreateRes :=
  let props := splitDash t.Key
  match props.get? 1, props.get? 2, props.get? 3, props.get? 4, props.get? 5 with
  | some Nspace, some MetricName, some ComparisonOperator, some Period, some Statistic =>
    let AlarmName := "AutoAlarm-" ++ function_name ++ "-" ++ Nspace ++ "-" ++ MetricName ++ "-"
      ++ ComparisonOperator ++ "-" ++ Period ++ "-" ++ Statistic
    create_alarm putOk AlarmName MetricName ComparisonOperator Period t.Value Statistic Nspace dimensions sns
  | _, _, _, _, _ => Except.error "list index out of range"

/-- The comparator scan of `actions.py` lines 194-199: first index `≥ i` whose
token is in `valid_comparators`. -/
def scanFrom : List String → Nat → Option Nat
  | [], _ => none
  | x :: xs, i => if valid_comparators.contains x then some i else scanFrom xs (i + 1)

/-- The dimension-pair loop of `actions.py` lines 210-219: consecutive tokens
are paired; an odd trailing token raises IndexError at `num * 2 + 1`. -/
def pairUp : List String → Except String (List (String × String))
  | [] => Except.ok []
  | [_] => Except.error "list index out of range"
  | a :: b :: rest => (pairUp rest).map (fun l => (a, b) :: l)

/-- Body of the variable-arity agent-namespace loop of `process_alarm_tags`
(`actions.py` lines 186-228): comparator scan, dimension pairing, alarm name
with interleaved dimension pairs, suffix fields at the pair offset. -/
def agentTagBody (putOk : String → Bool) (instance_id : String)
    (cw_agent_dimensions : List (String × String)) (sns : Option String) (t : Tag) : Except String CreateRes :=
  let props := splitDash t.Key
  match props.get? 1, props.get? 2 with
  | some Nspace, some MetricName =>
    match scanFrom (props.drop 3) 3 with
    | none => Except.error ("Unable to determine the dimensions for alarm tag " ++ t.Key)
    | some prop_end_index =>
      let additional_dimensions := (props.drop 3).take (prop_end_index - 3)
      match pairUp additional_dimensions with
      | Except.error e => Except.error e
      | Except.ok dimPairs =>
        let total_dimensions := cw_agent_dimensions ++ dimPairs
        let baseName := "AutoAlarm-" ++ instance_id ++ "-" ++ Nspace ++ "-" ++ MetricName
        let nameWithDims := dimPairs.foldl (fun acc p => acc ++ "-" ++ p.1 ++ "-" ++ p.2) baseName
        let properties_offset := 2 * dimPairs.length
        match props.get? (properties_offset + 3), props.get? (properties_offset + 4),
            props.get? (properties_offset + 5) with
        | some ComparisonOperator, some Period, some Statistic =>
          let AlarmName := nameWithDims ++ "-" ++ ComparisonOperator ++ "-" ++ Period ++ "-" ++ Statistic
          create_alarm putOk AlarmName MetricName ComparisonOperator Period t.Value Statistic Nspace
            total_dimensions sns
        | _, _, _ => Except.error "list index out of range"
  | _, _ => Except.error "list index out of range"

/-- A `for tag in bucket:` loop over alarm tags: each iteration runs `body`,
an uncaught error aborts the loop, and the attempted put calls and log lines
accumulate in order. -/
def runTagLoop (body : Tag → Except String CreateRes) : List Tag → Except String (List PutCall × List String)
  | [] => Except.ok ([], [])
  | t :: rest =>
    match body t with
    | Except.error e => Except.error e
    | Except.ok r =>
      match runTagLoop body rest with
      | Except.error e => Except.error e
      | Except.ok (ps, ls) => Except.ok (r.puts ++ ps, r.logs ++ ls)

/-- The tag-collection loop of `process_alarm_tags` (`actions.py` lines
124-131): every instance tag whose key starts with `AutoAlarm` is appended
into the caller's `default_alarms` bucket chosen by its namespace token.
A namespace token that starts with `AWS/EC2` but is not the configured
`AWS/EC2` key, or an absent platform bucket, is a KeyError (uncaught). -/
def collectInstanceTags (cw_namespace : String) (platform : Option String) :
    DefaultAlarms → List Tag → Except String DefaultAlarms
  | da, [] => Except.ok da
  | da, t :: rest =>
    if strStartsWith t.Key "AutoAlarm" then
      match (splitDash t.Key).get? 1 with
      | none => Except.error "list index out of range"
      | some ns =>
        if strStartsWith ns "AWS/EC2" then
          if ns = "AWS/EC2" then
            collectInstanceTags cw_namespace platform { da with ec2 := da.ec2 ++ [t] } rest
          else Except.error ("KeyError " ++ ns)
        else if ns = cw_namespace then
          match platform with
          | none => Except.error "KeyError None"
          | some plat =>
            match assocGet da.agent plat with
            | none => Except.error ("KeyError " ++ plat)
            | some bucket =>
              collectInstanceTags cw_namespace platform
                { da with agent := assocSet da.agent plat (bucket ++ [t]) } rest
        else collectInstanceTags cw_namespace platform da rest
    else collectInstanceTags cw_namespace platform da rest

/-- The static AWS/EC2 dimension resolution of `actions.py` lines 133-144:
each configured dimension name is looked up in the instance record, truthy
values are kept. -/
def buildStaticDimensions (metric_dimensions_map : List (String × List String))
    (attrs : List (String × String)) : List (String × String) :=
  let dimension_names := (assocGet metric_dimensions_map "AWS/EC2").getD []
  dimension_names.foldl (fun acc dim =>
    match assocGet attrs dim with
    | some v => if v = "" then acc else acc ++ [(dim, v)]
    | none => acc) []

/-- The agent dimension resolution of `actions.py` lines 160-182:
`AutoScalingGroupName` is resolved from the autoscaling group tag, other
names from the instance record; an unresolvable non-ASG name logs a warning.
Returns the dimension list and the warning log lines. -/
def buildAgentDimensions (metric_dimensions_map : List (String × List String))
    (cw_namespace instance_id : String) (instance_tags : List Tag)
    (attrs : List (String × String)) : List (String × String) × List String :=
  let names := (assocGet metric_dimensions_map cw_namespace).getD []
  names.foldl (fun acc dimension_name =>
    if dimension_name = "AutoScalingGroupName" then
      match (instance_tags.find? (fun tg => tg.Key == "aws:autoscaling:groupName")).map Tag.Value with
      | some v => if v = "" then acc else (acc.1 ++ [(dimension_name, v)], acc.2)
      | none => acc
    else
      match assocGet attrs dimension_name with
      | some v =>
        if v = "" then
          (acc.1, acc.2 ++ ["Dimension " ++ dimension_name ++ " has no value for instance " ++ instance_id ++ ", skipping"])
        else (acc.1 ++ [(dimension_name, v)], acc.2)
      | none =>
        (acc.1, acc.2 ++ ["Dimension " ++ dimension_name ++ " has no value for instance " ++ instance_id ++ ", skipping"]))
    ([], [])

/-- The observable outcome of `process_alarm_tags`: the (mutated) caller
mapping, the attempted put calls, and the log lines. -/
structure ProcResult where
  default_alarms : DefaultAlarms
  puts : List PutCall
  logs : List String
  deriving DecidableEq

/-- `process_alarm_tags` (`actions.py` lines 116-228): platform resolution,
tag collection into the caller's `default_alarms`, static EC2 dimensions,
the fixed-arity AWS/EC2 loop, agent dimensions, and the variable-arity
agent-namespace loop over the platform bucket. -/
def process_alarm_tags (putOk : String → Bool) (instance_id : String)
    (instance_info : InstanceInfo) (image : Option ImageRec)
    (default_alarms : DefaultAlarms) (metric_dimensions_map : List (String × List String))
    (sns_topic_arn : Option String) (cw_namespace : String) : Except String ProcResult :=
  let platform := determine_platform image
  match collectInstanceTags cw_namespace platform default_alarms instance_info.Tags with
  | Except.error e => Except.error e
  | Except.ok da =>
    let dimensions := buildStaticDimensions metric_dimensions_map instance_info.attrs
    match runTagLoop (ec2TagBody putOk instance_id dimensions sns_topic_arn) da.ec2 with
    | Except.error e => Except.error e
    | Except.ok (ps1, ls1) =>
      let agentDims := buildAgentDimensions metric_dimensions_map cw_namespace instance_id
        instance_info.Tags instance_info.attrs
      match platform with
      | none => Except.error "KeyError None"
      | some plat =>
        match assocGet da.agent plat with
        | none => Except.error ("KeyError " ++ plat)
        | some bucket =>
          match runTagLoop (agentTagBody putOk instance_id agentDims.1 sns_topic_arn) bucket with
          | Except.error e => Except.error e
          | Except.ok (ps2, ls2) =>
            Except.ok { default_alarms := da, puts := ps1 ++ ps2, logs := ls1 ++ agentDims.2 ++ ls2 }

/-- The tag-collection loop of `process_lambda_alarms` (`actions.py` lines
88-90): every tag whose key starts with `AutoAlarm` is appended into the
caller's `AWS/Lambda` default-alarm list, in iteration order. -/
def collectLambdaTags (da : DefaultAlarms) (tags : List (String × String)) : DefaultAlarms :=
  { da with awsLambda :=
      da.awsLambda ++ ((tags.filter fun p => strStartsWith p.1 "AutoAlarm").map fun p => Tag.mk p.1 p.2) }

/-- The observable outcome of `process_lambda_alarms`: the Python return
value (`True` on the early return, `None` otherwise), the (mutated) caller
mapping, the attempted put calls, and the log lines. -/
structure LambdaResult where
  result : Option Bool
  default_alarms : DefaultAlarms
  puts : List PutCall
  logs : List String
  deriving DecidableEq

/-- `process_lambda_alarms` (`actions.py` lines 81-113): activation-tag
lookup with the `not_found` sentinel, tag collection into the caller's
`AWS/Lambda` list, the `FunctionName` dimension, and the per-tag loop. -/
def process_lambda_alarms (putOk : String → Bool) (function_name : String)
    (tags : List (String × String)) (activation_tag : String)
    (default_alarms : DefaultAlarms) (sns_topic_arn : Option String) : Except String LambdaResult :=
  let act := dictGet tags activation_tag "not_found"
  if act = "not_found" then
    Except.ok { result := some true, default_alarms := default_alarms, puts := [],
                logs := ["Activation tag not found for " ++ function_name ++ ", nothing to do"] }
  else
    let da := collectLambdaTags default_alarms tags
    let dimensions := [("FunctionName", function_name)]
    match runTagLoop (lambdaTagBody putOk function_name dimensions sns_topic_arn) da.awsLambda with
    | Except.error e => Except.error e
    | Except.ok (ps, ls) =>
      Except.ok { result := none, default_alarms := da, puts := ps, logs := ls }

/-- Modelled from the spec: the external `listAlarmsByPrefix` capability used
by `delete_alarms` (the describe_alarms call with an alarm name filter
returns exactly the stored alarm names starting with the filter string). -/
def describe_alarms (store : List String) (pfx : String) : List String :=
  store.filter (fun n => strStartsWith n pfx)

/-- `delete_alarms` (`actions.py` lines 326-344): builds the name filter
`AutoAlarm-<name>`, lists matching alarms, accumulates their names, issues
one batch delete with that list, and returns True.  The issued delete list
and the return value are the observable outcome. -/
def delete_alarms (store : List String) (name : String) : List String × Bool :=
  let filterStr := "AutoAlarm-" ++ name
  let response := describe_alarms store filterStr
  let alarm_list := response.foldl (fun acc an => acc ++ [an]) []
  (alarm_list, true)

/-- Interleaving of a dimension name/value pair list into the token sequence
it occupies inside a variable-arity tag key. -/
def flattenPairs : List (String × String) → List String
  | [] => []
  | p :: r => p.1 :: p.2 :: flattenPairs r

/- ------------------------------------------------------------------ -/
/- Helper lemmas -/
/- ------------------------------------------------------------------ -/

lemma listLeads_refl (l : List Char) : listLeads l l = true := by
  induction l with
  | nil => rfl
  | cons c cs ih => simp [listLeads, ih]

lemma strStartsWith_self (s : String) : strStartsWith s s = true :=
  listLeads_refl s.data

lemma runTagLoop_error_cons (body : Tag → Except String CreateRes) (t : Tag)
    (rest : List Tag) (e : String) (h : body t = Except.error e) :
    runTagLoop body (t :: rest) = Except.error e := by
  simp [runTagLoop, h]

lemma foldl_snoc_eq (l acc : List String) :
    l.foldl (fun a x => a ++ [x]) acc = acc ++ l := by
  induction l generalizing acc with
  | nil => simp
  | cons x xs ih => simp [List.foldl_cons, ih]

lemma create_alarm_puts_indep (p1 p2 : String → Bool)
    (an mn co per th st ns : String) (dims : List (String × String)) (sns : Option String) :
    (create_alarm p1 an mn co per th st ns dims sns).map CreateRes.puts =
      (create_alarm p2 an mn co per th st ns dims sns).map CreateRes.puts := by
  cases hf : pyFloatOk th <;> simp [create_alarm, hf, Except.map]

lemma runTagLoop_fst_congr (b1 b2 : Tag → Except String CreateRes)
    (h : ∀ t, (b1 t).map CreateRes.puts = (b2 t).map CreateRes.puts) (ts : List Tag) :
    (runTagLoop b1 ts).map Prod.fst = (runTagLoop b2 ts).map Prod.fst := by
  induction ts with
  | nil => rfl
  | cons t rest ih =>
    have ht := h t
    cases e1 : b1 t <;> cases e2 : b2 t <;> rw [e1, e2] at ht
    case error.error a b =>
      simp [Except.map] at ht
      simp [runTagLoop, e1, e2, ht]
    case error.ok a r2 => simp [Except.map] at ht
    case ok.error r1 b => simp [Except.map] at ht
    case ok.ok r1 r2 =>
      simp [Except.map] at ht
      simp only [runTagLoop, e1, e2]
      cases er1 : runTagLoop b1 rest <;> cases er2 : runTagLoop b2 rest <;> rw [er1, er2] at ih
      case error.error ea eb =>
        simp [Except.map] at ih
        simp [Except.map, ih]
      case error.ok ea pr => simp [Except.map] at ih
      case ok.error pr eb => simp [Except.map] at ih
      case ok.ok pr1 pr2 =>
        simp [Except.map] at ih ⊢
        simp [ht, ih]

lemma ec2TagBody_puts_indep (p1 p2 : String → Bool) (id : String)
    (dims : List (String × String)) (sns : Option String) (t : Tag) :
    (ec2TagBody p1 id dims sns t).map CreateRes.puts =
      (ec2TagBody p2 id dims sns t).map CreateRes.puts := by
  simp only [ec2TagBody]
  cases (splitDash t.Key).get? 1 <;> cases (splitDash t.Key).get? 2 <;>
    cases (splitDash t.Key).get? 3 <;> cases (splitDash t.Key).get? 4 <;>
    cases (splitDash t.Key).get? 5 <;> dsimp only <;>
    first
      | rfl
      | apply create_alarm_puts_indep

lemma agentTagBody_puts_indep (p1 p2 : String → Bool) (id : String)
    (dims : List (String × String)) (sns : Option String) (t : Tag) :
    (agentTagBody p1 id dims sns t).map CreateRes.puts =
      (agentTagBody p2 id dims sns t).map CreateRes.puts := by
  simp only [agentTagBody]
  cases (splitDash t.Key).get? 1 with
  | none => rfl
  | some ns =>
    cases (splitDash t.Key).get? 2 with
    | none => rfl
    | some mn =>
      dsimp only
      cases scanFrom ((splitDash t.Key).drop 3) 3 with
      | none => rfl
      | some pei =>
        dsimp only
        cases pairUp (((splitDash t.Key).drop 3).take (pei - 3)) with
        | error e => rfl
        | ok dimPairs =>
          dsimp only
          cases (splitDash t.Key).get? (2 * dimPairs.length + 3) <;>
            cases (splitDash t.Key).get? (2 * dimPairs.length + 4) <;>
            cases (splitDash t.Key).get? (2 * dimPairs.length + 5) <;> dsimp only <;>
            first
              | rfl
              | apply create_alarm_puts_indep

lemma collectInstanceTags_nil (cw : String) (plat : Option String) (da : DefaultAlarms) :
    collectInstanceTags cw plat da [] = Except.ok da := rfl

lemma collectInstanceTags_cons (cw : String) (plat : Option String) (da : DefaultAlarms)
    (t : Tag) (rest : List Tag) :
    collectInstanceTags cw plat da (t :: rest) =
      (if strStartsWith t.Key "AutoAlarm" then
        match (splitDash t.Key).get? 1 with
        | none => Except.error "list index out of range"
        | some ns =>
          if strStartsWith ns "AWS/EC2" then
            if ns = "AWS/EC2" then
              collectInstanceTags cw plat { da with ec2 := da.ec2 ++ [t] } rest
            else Except.error ("KeyError " ++ ns)
          else if ns = cw then
            match plat with
            | none => Except.error "KeyError None"
            | some plat0 =>
              match assocGet da.agent plat0 with
              | none => Except.error ("KeyError " ++ plat0)
              | some bucket =>
                collectInstanceTags cw plat
                  { da with agent := assocSet da.agent plat0 (bucket ++ [t]) } rest
          else collectInstanceTags cw plat da rest
      else collectInstanceTags cw plat da rest) := rfl

lemma collect_ec2_proj : ∀ (ts : List Tag) (cw : String) (plat : Option String)
    (da da2 : DefaultAlarms), collectInstanceTags cw plat da ts = Except.ok da2 →
    da2.ec2 = da.ec2 ++ (ts.filter fun t =>
      strStartsWith t.Key "AutoAlarm" && ((splitDash t.Key).get? 1 == some "AWS/EC2")) := by
  intro ts
  induction ts with
  | nil =>
    intro cw plat da da2 h
    rw [collectInstanceTags_nil] at h
    cases h
    simp
  | cons t rest ih =>
    intro cw plat da da2 h
    rw [collectInstanceTags_cons] at h
    rw [List.filter_cons]
    cases hk : strStartsWith t.Key "AutoAlarm" with
    | false =>
      rw [hk] at h
      simp only [Bool.false_eq_true, if_false] at h
      simp only [hk, Bool.false_and, if_false]
      exact ih _ _ _ _ h
    | true =>
      rw [hk] at h
      simp only [if_true] at h
      simp only [hk, Bool.true_and]
      cases hg : (splitDash t.Key).get? 1 with
      | none => rw [hg] at h; exact absurd h (by simp)
      | some ns =>
        rw [hg] at h
        dsimp only at h
        cases hns : strStartsWith ns "AWS/EC2" with
        | true =>
          rw [hns] at h
          simp only [if_true] at h
          by_cases heq : ns = "AWS/EC2"
          · rw [if_pos heq] at h
            have hrec := ih _ _ _ _ h
            subst heq
            simp only [hrec]
            simp [List.append_assoc]
          · rw [if_neg heq] at h
            exact absurd h (by simp)
        | false =>
          rw [hns] at h
          simp only [Bool.false_eq_true, if_false] at h
          have hnsne : (some ns == some "AWS/EC2") = false := by
            cases hb : ns == "AWS/EC2" with
            | false => simp [hb]
            | true =>
              rw [eq_of_beq hb] at hns
              rw [strStartsWith_self] at hns
              cases hns
          rw [hnsne]
          simp only [Bool.false_eq_true, if_false]
          by_cases hcw : ns = cw
          · rw [if_pos hcw] at h
            cases plat with
            | none => exact absurd h (by simp)
            | some plat0 =>
              dsimp only at h
              cases hag : assocGet da.agent plat0 with
              | none => rw [hag] at h; exact absurd h (by simp)
              | some bucket =>
                rw [hag] at h
                dsimp only at h
                have hrec := ih _ _ _ _ h
                exact hrec
          · rw [if_neg hcw] at h
            exact ih _ _ _ _ h

/- ------------------------------------------------------------------ -/
/- Claim theorems -/
/- ------------------------------------------------------------------ -/

/-- C4 (amended): when the Period string has an unrecognized unit or a
non-numeric magnitude, `create_alarm` logs the conversion error but does NOT
abort that alarm: the put call is still issued, carrying the unconverted
Period string; and `convert_to_seconds` maps 5m/1h/2d/1w to their second
counts and fails on an unknown unit. -/
theorem C4_period_error_logged_put_still_issued :
    (∀ (putOk : String → Bool) (an mn co per th st ns : String)
        (dims : List (String × String)) (sns : Option String),
      convert_to_seconds per = none → pyFloatOk th = true →
      create_alarm putOk an mn co per th st ns dims sns =
        Except.ok { puts := [⟨an, mn, co, st, ns, th, per, PVal.raw per, dims,
                      match sns with | some a => [a] | none => []⟩],
                    logs := ["Error converting Period specified to seconds for Alarm " ++ an,
                      if putOk an then "Created alarm " ++ an
                      else "Error creating alarm " ++ an] })
    ∧ convert_to_seconds "5m" = some 300 ∧ convert_to_seconds "1h" = some 3600
    ∧ convert_to_seconds "2d" = some 172800 ∧ convert_to_seconds "1w" = some 604800
    ∧ convert_to_seconds "5x" = none := by
  refine ⟨?_, rfl, rfl, rfl, rfl, rfl⟩
  intro putOk an mn co per th st ns dims sns hconv hf
  simp [create_alarm, hconv, hf]

/-- Witness for C4: concrete instance with Period `5x` and Threshold `80`. -/
theorem C4_witness :
    convert_to_seconds "5x" = none ∧ pyFloatOk "80" = true ∧
    create_alarm (fun _ => true) "A" "M" "C" "5x" "80" "Avg" "NS" [] none =
      Except.ok ⟨[⟨"A", "M", "C", "Avg", "NS", "80", "5x", PVal.raw "5x", [], []⟩],
        ["Error converting Period specified to seconds for Alarm A", "Created alarm A"]⟩ :=
  ⟨rfl, rfl, C4_period_error_logged_put_still_issued.1 (fun _ => true)
    "A" "M" "C" "5x" "80" "Avg" "NS" [] none rfl rfl⟩

/-- C4 counterexample: the claim says no put-alarm call is issued for an
alarm with unparseable Period, but `create_alarm` returns success with
exactly one issued put call for Period `5x`. -/
theorem C4_counterexample :
    convert_to_seconds "5x" = none ∧
    (create_alarm (fun _ => true) "AutoAlarm-i-1-CWAgent-mem_used_percent-GreaterThanThreshold-5x-Average"
        "mem_used_percent" "GreaterThanThreshold" "5x" "80" "Average" "CWAgent" [] none).map
      (fun r => r.puts.length) = Except.ok 1 :=
  ⟨rfl, rfl⟩

/-- C5 (amended): an unparseable Threshold raises out of `create_alarm`
(`float(Threshold)` is outside any try block), and an error raised by the
loop body on one tag aborts the remaining tags of the same resource. -/
theorem C5_threshold_error_propagates :
    (∀ (putOk : String → Bool) (an mn co per th st ns : String)
        (dims : List (String × String)) (sns : Option String),
      pyFloatOk th = false →
      create_alarm putOk an mn co per th st ns dims sns =
        Except.error ("could not convert string to float: " ++ th))
    ∧ (∀ (body : Tag → Except String CreateRes) (t : Tag) (rest : List Tag) (e : String),
      body t = Except.error e → runTagLoop body (t :: rest) = Except.error e) := by
  constructor
  · intro putOk an mn co per th st ns dims sns hf
    simp [create_alarm, hf]
  · intro body t rest e h
    exact runTagLoop_error_cons body t rest e h

/-- Witness for C5: Threshold `abc` fails the float conversion and the error
escapes `create_alarm`; in a two-tag batch the second tag is never reached. -/
theorem C5_witness :
    pyFloatOk "abc" = false ∧
    create_alarm (fun _ => false) "B" "M" "C" "1h" "abc" "Avg" "NS" [] none =
      Except.error ("could not convert string to float: " ++ "abc") ∧
    ec2TagBody (fun _ => true) "i-1" [] none
        ⟨"AutoAlarm-AWS/EC2-CPUUtilization-GreaterThanThreshold-5m-Average", "abc"⟩ =
      Except.error "could not convert string to float: abc" ∧
    runTagLoop (ec2TagBody (fun _ => true) "i-1" [] none)
        [⟨"AutoAlarm-AWS/EC2-CPUUtilization-GreaterThanThreshold-5m-Average", "abc"⟩,
         ⟨"AutoAlarm-AWS/EC2-CPUUtilization-GreaterThanThreshold-5m-Average", "80"⟩] =
      Except.error "could not convert string to float: abc" :=
  ⟨rfl, C5_threshold_error_propagates.1 (fun _ => false) "B" "M" "C" "1h" "abc" "Avg" "NS" [] none rfl,
   rfl,
   C5_threshold_error_propagates.2 (ec2TagBody (fun _ => true) "i-1" [] none)
     ⟨"AutoAlarm-AWS/EC2-CPUUtilization-GreaterThanThreshold-5m-Average", "abc"⟩
     [⟨"AutoAlarm-AWS/EC2-CPUUtilization-GreaterThanThreshold-5m-Average", "80"⟩]
     "could not convert string to float: abc" rfl⟩

/-- C5 counterexample: the claim says a float-conversion failure does not
propagate out of `create_alarm` and later sibling tags are still processed;
in fact `create_alarm` returns the uncaught error and the loop over a
two-tag batch aborts with it, processing nothing further. -/
theorem C5_counterexample :
    create_alarm (fun _ => true) "A" "M" "GreaterThanThreshold" "5m" "abc" "Average" "AWS/EC2" [] none =
      Except.error "could not convert string to float: abc" ∧
    runTagLoop (ec2TagBody (fun _ => true) "i-9" [] none)
        [⟨"AutoAlarm-AWS/EC2-CPUUtilization-GreaterThanThreshold-5m-Average", "abc"⟩,
         ⟨"AutoAlarm-AWS/EC2-StatusCheckFailed-GreaterThanThreshold-5m-Maximum", "1"⟩] =
      Except.error "could not convert string to float: abc" :=
  ⟨rfl, rfl⟩

/-- C6: platform classification.  A PlatformDetails containing `Red Hat`
(and not matching the higher-priority Windows rules) classifies as Red Hat
for every name/description; `Linux/UNIX` (matching no earlier rule)
classifies as Ubuntu exactly when `ubuntu` occurs case-insensitively in the
description or name and as Amazon Linux otherwise; details matching no rule,
or a missing image, give `none`. -/
theorem C6_determine_platform_classification :
    (∀ pd nm ds, strContains pd "Red Hat" = true → strContains pd "Windows" = false →
      strContains pd "SQL Server" = false →
      determine_platform (some ⟨pd, nm, ds⟩) = some "Red Hat")
    ∧ (∀ pd nm ds, strContains pd "Linux/UNIX" = true → strContains pd "Windows" = false →
      strContains pd "SQL Server" = false → strContains pd "Red Hat" = false →
      strContains pd "SUSE" = false →
      determine_platform (some ⟨pd, nm, ds⟩) =
        (if strContains (strLower ds) "ubuntu" || strContains (strLower nm) "ubuntu" then
          some "Ubuntu" else some "Amazon Linux"))
    ∧ (∀ pd nm ds, strContains pd "Windows" = false → strContains pd "SQL Server" = false →
      strContains pd "Red Hat" = false → strContains pd "SUSE" = false →
      strContains pd "Linux/UNIX" = false →
      determine_platform (some ⟨pd, nm, ds⟩) = none)
    ∧ determine_platform none = none := by
  refine ⟨?_, ?_, ?_, rfl⟩
  · intro pd nm ds h1 h2 h3
    simp [determine_platform, h1, h2, h3]
  · intro pd nm ds h1 h2 h3 h4 h5
    simp [determine_platform, h1, h2, h3, h4, h5]
  · intro pd nm ds h1 h2 h3 h4 h5
    simp [determine_platform, h1, h2, h3, h4, h5]

/-- Witness for C6: concrete images exercising the Red Hat, Ubuntu,
Amazon Linux and unmatched branches. -/
theorem C6_witness :
    strContains "Red Hat Enterprise Linux" "Red Hat" = true ∧
    strContains "Red Hat Enterprise Linux" "Windows" = false ∧
    strContains "Red Hat Enterprise Linux" "SQL Server" = false ∧
    determine_platform (some ⟨"Red Hat Enterprise Linux", "rhel-8", "RHEL 8"⟩) = some "Red Hat" ∧
    determine_platform (some ⟨"Linux/UNIX", "ubuntu-20.04", "Canonical image"⟩) = some "Ubuntu" ∧
    determine_platform (some ⟨"Linux/UNIX", "amzn2-ami", "Amazon Linux 2 AMI"⟩) = some "Amazon Linux" ∧
    determine_platform (some ⟨"Weird Platform", "nm", "ds"⟩) = none :=
  ⟨rfl, rfl, rfl,
   C6_determine_platform_classification.1 "Red Hat Enterprise Linux" "rhel-8" "RHEL 8" rfl rfl rfl,
   C6_determine_platform_classification.2.1 "Linux/UNIX" "ubuntu-20.04" "Canonical image" rfl rfl rfl rfl rfl,
   C6_determine_platform_classification.2.1 "Linux/UNIX" "amzn2-ami" "Amazon Linux 2 AMI" rfl rfl rfl rfl rfl,
   C6_determine_platform_classification.2.2.1 "Weird Platform" "nm" "ds" rfl rfl rfl rfl rfl⟩

/-- C7: `delete_alarms` issues one batch delete containing exactly the stored
alarm names that start with `AutoAlarm-<name>` and returns True; with no
matching alarm the delete is still issued with the empty list and the call
still returns True. -/
theorem C7_delete_by_name_filter :
    ∀ (store : List String) (name : String),
      delete_alarms store name =
        (store.filter (fun n => strStartsWith n ("AutoAlarm-" ++ name)), true)
      ∧ (store.filter (fun n => strStartsWith n ("AutoAlarm-" ++ name)) = [] →
          delete_alarms store name = ([], true)) := by
  intro store name
  have hbase : delete_alarms store name =
      (store.filter (fun n => strStartsWith n ("AutoAlarm-" ++ name)), true) := by
    simp [delete_alarms, describe_alarms, foldl_snoc_eq]
  exact ⟨hbase, fun hempty => by rw [hbase, hempty]⟩

/-- Witness for C7: a store with no matching alarm still yields an issued
(empty) delete and a True result. -/
theorem C7_witness :
    (["Other-1", "AutoAlarm-i-2-x"].filter
        (fun n => strStartsWith n ("AutoAlarm-" ++ "i-9")) = []) ∧
    delete_alarms ["Other-1", "AutoAlarm-i-2-x"] "i-9" = ([], true) :=
  ⟨rfl, (C7_delete_by_name_filter ["Other-1", "AutoAlarm-i-2-x"] "i-9").2 rfl⟩

/-- C10: whenever the activation-tag lookup yields the sentinel string
`not_found` — whether the tag is absent or literally carries that value —
`process_lambda_alarms` returns True immediately, issues no put calls and
leaves the caller's default_alarms untouched. -/
theorem C10_not_found_sentinel :
    ∀ (putOk : String → Bool) (fn : String) (tags : List (String × String))
      (atag : String) (da : DefaultAlarms) (sns : Option String),
      dictGet tags atag "not_found" = "not_found" →
      process_lambda_alarms putOk fn tags atag da sns =
        Except.ok { result := some true, default_alarms := da, puts := [],
                    logs := ["Activation tag not found for " ++ fn ++ ", nothing to do"] } := by
  intro putOk fn tags atag da sns h
  simp [process_lambda_alarms, h]

/-- Witness for C10: the tag is present with the literal value `not_found`
and the function returns True with no alarms. -/
theorem C10_witness :
    dictGet [("autoalarm", "not_found")] "autoalarm" "not_found" = "not_found" ∧
    process_lambda_alarms (fun _ => true) "fn" [("autoalarm", "not_found")] "autoalarm"
        ⟨[], [], []⟩ none =
      Except.ok ⟨some true, ⟨[], [], []⟩, [],
        ["Activation tag not found for fn, nothing to do"]⟩ :=
  ⟨rfl, C10_not_found_sentinel (fun _ => true) "fn" [("autoalarm", "not_found")] "autoalarm"
    ⟨[], [], []⟩ none rfl⟩

/-- C1 (amended): for a fixed-arity tag key splitting as
`[prefix, Namespace, MetricName, ComparisonOperator, Period, Statistic]`,
`process_lambda_alarms` builds the claimed
`AutoAlarm-<fn>-<Namespace>-<MetricName>-<ComparisonOperator>-<Period>-<Statistic>`
name, but the AWS/EC2 loop of `process_alarm_tags` builds
`AutoAlarm-<id>-<Namespace>-<MetricName>-<ComparisonOperator>-<TagValue>-<Period>`:
the tag value (the threshold) is interpolated after the comparison operator
and the Statistic token is omitted. -/
theorem C1_fixed_arity_alarm_names :
    (∀ (putOk : String → Bool) (instance_id : String) (dims : List (String × String))
        (sns : Option String) (t : Tag) (pre ns mn co per st : String),
      splitDash t.Key = [pre, ns, mn, co, per, st] → pyFloatOk t.Value = true →
      (ec2TagBody putOk instance_id dims sns t).map (fun r => r.puts.map PutCall.AlarmName) =
        Except.ok ["AutoAlarm-" ++ instance_id ++ "-" ++ ns ++ "-" ++ mn ++ "-"
          ++ co ++ "-" ++ t.Value ++ "-" ++ per])
    ∧ (∀ (putOk : String → Bool) (fn : String) (dims : List (String × String))
        (sns : Option String) (t : Tag) (pre ns mn co per st : String),
      splitDash t.Key = [pre, ns, mn, co, per, st] → pyFloatOk t.Value = true →
      (lambdaTagBody putOk fn dims sns t).map (fun r => r.puts.map PutCall.AlarmName) =
        Except.ok ["AutoAlarm-" ++ fn ++ "-" ++ ns ++ "-" ++ mn ++ "-"
          ++ co ++ "-" ++ per ++ "-" ++ st]) := by
  constructor
  · intro putOk instance_id dims sns t pre ns mn co per st hsplit hf
    simp [ec2TagBody, hsplit, create_alarm, hf, Except.map]
  · intro putOk fn dims sns t pre ns mn co per st hsplit hf
    simp [lambdaTagBody, hsplit, create_alarm, hf, Except.map]

/-- Witness for C1: the same fixed-arity key through both loop bodies. -/
theorem C1_witness :
    splitDash "AutoAlarm-AWS/EC2-CPUUtilization-GreaterThanThreshold-5m-Average" =
      ["AutoAlarm", "AWS/EC2", "CPUUtilization", "GreaterThanThreshold", "5m", "Average"] ∧
    pyFloatOk "80" = true ∧
    (ec2TagBody (fun _ => true) "i-1" [] none
        ⟨"AutoAlarm-AWS/EC2-CPUUtilization-GreaterThanThreshold-5m-Average", "80"⟩).map
      (fun r => r.puts.map PutCall.AlarmName) =
      Except.ok ["AutoAlarm-i-1-AWS/EC2-CPUUtilization-GreaterThanThreshold-80-5m"] ∧
    (lambdaTagBody (fun _ => true) "fn" [] none
        ⟨"AutoAlarm-AWS/EC2-CPUUtilization-GreaterThanThreshold-5m-Average", "80"⟩).map
      (fun r => r.puts.map PutCall.AlarmName) =
      Except.ok ["AutoAlarm-fn-AWS/EC2-CPUUtilization-GreaterThanThreshold-5m-Average"] :=
  ⟨rfl, rfl,
   C1_fixed_arity_alarm_names.1 (fun _ => true) "i-1" [] none
     ⟨"AutoAlarm-AWS/EC2-CPUUtilization-GreaterThanThreshold-5m-Average", "80"⟩
     "AutoAlarm" "AWS/EC2" "CPUUtilization" "GreaterThanThreshold" "5m" "Average" rfl rfl,
   C1_fixed_arity_alarm_names.2 (fun _ => true) "fn" [] none
     ⟨"AutoAlarm-AWS/EC2-CPUUtilization-GreaterThanThreshold-5m-Average", "80"⟩
     "AutoAlarm" "AWS/EC2" "CPUUtilization" "GreaterThanThreshold" "5m" "Average" rfl rfl⟩

/-- C1 counterexample: running `process_alarm_tags` on a fixed-arity EC2 tag
with Period `5m` and Statistic `Average` produces an alarm name carrying the
tag value `80` in place of the Period position and no Statistic token, not
the name the claim specifies. -/
theorem C1_counterexample :
    (process_alarm_tags (fun _ => true) "i-1" ⟨[], "ami-1", []⟩
        (some ⟨"Linux/UNIX", "amzn2-ami", "Amazon Linux 2 AMI"⟩)
        ⟨[⟨"AutoAlarm-AWS/EC2-CPUUtilization-GreaterThanThreshold-5m-Average", "80"⟩], [],
          [("Amazon Linux", [])]⟩ [] none "CWAgent").map
      (fun r => r.puts.map PutCall.AlarmName) =
      Except.ok ["AutoAlarm-i-1-AWS/EC2-CPUUtilization-GreaterThanThreshold-80-5m"] ∧
    "AutoAlarm-i-1-AWS/EC2-CPUUtilization-GreaterThanThreshold-80-5m" ≠
      "AutoAlarm-i-1-AWS/EC2-CPUUtilization-GreaterThanThreshold-5m-Average" :=
  ⟨rfl, by decide⟩

/-- C3 (amended): when no token at index 3 or later of an agent-namespace
tag key matches the comparator enumeration, the loop body logs and raises
(rather than skipping that tag): the body returns the grammar error and the
loop over the remaining tags of the same resource aborts with it. -/
theorem C3_no_comparator_aborts_invocation :
    (∀ (putOk : String → Bool) (id : String) (dims : List (String × String))
        (sns : Option String) (t : Tag) (ns mn : String),
      (splitDash t.Key).get? 1 = some ns → (splitDash t.Key).get? 2 = some mn →
      scanFrom ((splitDash t.Key).drop 3) 3 = none →
      agentTagBody putOk id dims sns t =
        Except.error ("Unable to determine the dimensions for alarm tag " ++ t.Key))
    ∧ (∀ (body : Tag → Except String CreateRes) (t : Tag) (rest : List Tag) (e : String),
      body t = Except.error e → runTagLoop body (t :: rest) = Except.error e) := by
  constructor
  · intro putOk id dims sns t ns mn h1 h2 hscan
    simp only [List.get?_eq_getElem?] at h1 h2
    simp [agentTagBody, h1, h2, hscan]
  · intro body t rest e h
    exact runTagLoop_error_cons body t rest e h

/-- Witness for C3: a key with no comparator token; the body errors and a
two-tag loop aborts without reaching its second (well-formed) tag. -/
theorem C3_witness :
    (splitDash "AutoAlarm-CWAgent-mem_used_percent-foo").get? 1 = some "CWAgent" ∧
    (splitDash "AutoAlarm-CWAgent-mem_used_percent-foo").get? 2 = some "mem_used_percent" ∧
    scanFrom ((splitDash "AutoAlarm-CWAgent-mem_used_percent-foo").drop 3) 3 = none ∧
    agentTagBody (fun _ => true) "i-1" [] none ⟨"AutoAlarm-CWAgent-mem_used_percent-foo", "90"⟩ =
      Except.error ("Unable to determine the dimensions for alarm tag "
        ++ "AutoAlarm-CWAgent-mem_used_percent-foo") ∧
    runTagLoop (agentTagBody (fun _ => true) "i-1" [] none)
        [⟨"AutoAlarm-CWAgent-mem_used_percent-foo", "90"⟩,
         ⟨"AutoAlarm-CWAgent-cpu_usage_idle-GreaterThanThreshold-5m-Average", "90"⟩] =
      Except.error "Unable to determine the dimensions for alarm tag AutoAlarm-CWAgent-mem_used_percent-foo" :=
  ⟨rfl, rfl, rfl,
   C3_no_comparator_aborts_invocation.1 (fun _ => true) "i-1" [] none
     ⟨"AutoAlarm-CWAgent-mem_used_percent-foo", "90"⟩ "CWAgent" "mem_used_percent" rfl rfl rfl,
   C3_no_comparator_aborts_invocation.2 (agentTagBody (fun _ => true) "i-1" [] none)
     ⟨"AutoAlarm-CWAgent-mem_used_percent-foo", "90"⟩
     [⟨"AutoAlarm-CWAgent-cpu_usage_idle-GreaterThanThreshold-5m-Average", "90"⟩]
     "Unable to determine the dimensions for alarm tag AutoAlarm-CWAgent-mem_used_percent-foo" rfl⟩

/-- C3 counterexample: with a malformed tag followed by a well-formed one in
the same platform bucket, `process_alarm_tags` returns the grammar error and
creates nothing, instead of skipping the malformed tag and continuing. -/
theorem C3_counterexample :
    process_alarm_tags (fun _ => true) "i-1" ⟨[], "ami-1", []⟩
        (some ⟨"Linux/UNIX", "amzn2-ami", "Amazon Linux 2 AMI"⟩)
        ⟨[], [], [("Amazon Linux",
          [⟨"AutoAlarm-CWAgent-mem_used_percent-foo", "90"⟩,
           ⟨"AutoAlarm-CWAgent-cpu_usage_idle-GreaterThanThreshold-5m-Average", "90"⟩])]⟩
        [] none "CWAgent" =
      Except.error "Unable to determine the dimensions for alarm tag AutoAlarm-CWAgent-mem_used_percent-foo" :=
  rfl

/-- C8: a put failure reported by the alarm store is caught and logged inside
`create_alarm` (which still returns success), and the sequence of put calls
attempted by the AWS/EC2 and agent loops is independent of which alarms the
store accepts, so each sibling alarm is attempted regardless of earlier
failures. -/
theorem C8_store_errors_isolated :
    (∀ (putOk : String → Bool) (an mn co per th st ns : String)
        (dims : List (String × String)) (sns : Option String),
      pyFloatOk th = true → putOk an = false →
      ∃ r, create_alarm putOk an mn co per th st ns dims sns = Except.ok r ∧
        ("Error creating alarm " ++ an) ∈ r.logs)
    ∧ (∀ (p1 p2 : String → Bool) (id : String) (dims : List (String × String))
        (sns : Option String) (ts : List Tag),
      (runTagLoop (ec2TagBody p1 id dims sns) ts).map Prod.fst =
        (runTagLoop (ec2TagBody p2 id dims sns) ts).map Prod.fst)
    ∧ (∀ (p1 p2 : String → Bool) (id : String) (dims : List (String × String))
        (sns : Option String) (ts : List Tag),
      (runTagLoop (agentTagBody p1 id dims sns) ts).map Prod.fst =
        (runTagLoop (agentTagBody p2 id dims sns) ts).map Prod.fst) := by
  refine ⟨?_, ?_, ?_⟩
  · intro putOk an mn co per th st ns dims sns hf hp
    refine ⟨{ puts := [⟨an, mn, co, st, ns, th, per,
                (match convert_to_seconds per with
                  | some n => PVal.secs n
                  | none => PVal.raw per), dims,
                (match sns with | some a => [a] | none => [])⟩],
              logs := (match convert_to_seconds per with
                | some _ => []
                | none => ["Error converting Period specified to seconds for Alarm " ++ an]) ++
                ["Error creating alarm " ++ an] }, ?_, ?_⟩
    · simp [create_alarm, hf, hp]
    · simp
  · intro p1 p2 id dims sns ts
    exact runTagLoop_fst_congr _ _ (fun t => ec2TagBody_puts_indep p1 p2 id dims sns t) ts
  · intro p1 p2 id dims sns ts
    exact runTagLoop_fst_congr _ _ (fun t => agentTagBody_puts_indep p1 p2 id dims sns t) ts

/-- Witness for C8: a store that rejects every put; the call still succeeds
and records the error log line. -/
theorem C8_witness :
    pyFloatOk "80" = true ∧ (fun _ : String => false) "A" = false ∧
    (∃ r, create_alarm (fun _ => false) "A" "M" "C" "5m" "80" "Avg" "NS" [] none =
      Except.ok r ∧ ("Error creating alarm " ++ "A") ∈ r.logs) :=
  ⟨rfl, rfl, C8_store_errors_isolated.1 (fun _ => false) "A" "M" "C" "5m" "80" "Avg" "NS" [] none rfl rfl⟩

/-- C9 (amended): both processing routines append the resource's matching
AutoAlarm tags into the caller-owned default_alarms lists: after a
successful run the `AWS/Lambda` list has gained every tag key starting with
`AutoAlarm`, and the `AWS/EC2` list every instance tag whose namespace token
is `AWS/EC2`; the mapping is not left unchanged, so repeat invocations with
the same mapping accumulate entries. -/
theorem C9_default_alarms_mutated :
    (∀ (putOk : String → Bool) (fn : String) (tags : List (String × String))
        (atag : String) (da : DefaultAlarms) (sns : Option String) (r : LambdaResult),
      dictGet tags atag "not_found" ≠ "not_found" →
      process_lambda_alarms putOk fn tags atag da sns = Except.ok r →
      r.default_alarms.awsLambda =
        da.awsLambda ++ ((tags.filter fun p => strStartsWith p.1 "AutoAlarm").map
          fun p => Tag.mk p.1 p.2))
    ∧ (∀ (putOk : String → Bool) (id : String) (info : InstanceInfo)
        (image : Option ImageRec) (da : DefaultAlarms)
        (mdm : List (String × List String)) (sns : Option String) (cw : String)
        (r : ProcResult),
      process_alarm_tags putOk id info image da mdm sns cw = Except.ok r →
      r.default_alarms.ec2 =
        da.ec2 ++ (info.Tags.filter fun t =>
          strStartsWith t.Key "AutoAlarm" && ((splitDash t.Key).get? 1 == some "AWS/EC2"))) := by
  constructor
  · intro putOk fn tags atag da sns r hact hr
    simp only [process_lambda_alarms] at hr
    rw [if_neg hact] at hr
    cases hl : runTagLoop (lambdaTagBody putOk fn [("FunctionName", fn)] sns)
        (collectLambdaTags da tags).awsLambda with
    | error e => rw [hl] at hr; exact absurd hr (by simp)
    | ok pr =>
      obtain ⟨ps, ls⟩ := pr
      rw [hl] at hr
      dsimp only at hr
      injection hr with hr2
      subst hr2
      simp [collectLambdaTags]
  · intro putOk id info image da mdm sns cw r hr
    simp only [process_alarm_tags] at hr
    cases hc : collectInstanceTags cw (determine_platform image) da info.Tags with
    | error e => rw [hc] at hr; exact absurd hr (by simp)
    | ok da2 =>
      rw [hc] at hr
      dsimp only at hr
      cases hl1 : runTagLoop (ec2TagBody putOk id (buildStaticDimensions mdm info.attrs) sns)
          da2.ec2 with
      | error e => rw [hl1] at hr; exact absurd hr (by simp)
      | ok pr1 =>
        obtain ⟨ps1, ls1⟩ := pr1
        rw [hl1] at hr
        dsimp only at hr
        cases hp : determine_platform image with
        | none => rw [hp] at hr; exact absurd hr (by simp)
        | some plat =>
          rw [hp] at hr
          dsimp only at hr
          cases hag : assocGet da2.agent plat with
          | none => rw [hag] at hr; exact absurd hr (by simp)
          | some bucket =>
            rw [hag] at hr
            dsimp only at hr
            cases hl2 : runTagLoop (agentTagBody putOk id
                (buildAgentDimensions mdm cw id info.Tags info.attrs).1 sns) bucket with
            | error e => rw [hl2] at hr; exact absurd hr (by simp)
            | ok pr2 =>
              obtain ⟨ps2, ls2⟩ := pr2
              rw [hl2] at hr
              dsimp only at hr
              injection hr with hr2
              subst hr2
              exact collect_ec2_proj info.Tags cw (determine_platform image) da da2 hc

/-- Witness for C9 (amended theorem): a run with the activation tag present
and no AutoAlarm tags leaves the list equal to the appended (empty) batch. -/
theorem C9_witness :
    dictGet [("autoalarm", "1")] "autoalarm" "not_found" ≠ "not_found" ∧
    process_lambda_alarms (fun _ => true) "fn" [("autoalarm", "1")] "autoalarm"
        ⟨[], [], []⟩ none = Except.ok ⟨none, ⟨[], [], []⟩, [], []⟩ ∧
    (⟨none, ⟨[], [], []⟩, [], []⟩ : LambdaResult).default_alarms.awsLambda =
      ([] : List Tag) ++ (([("autoalarm", "1")].filter
        fun p => strStartsWith p.1 "AutoAlarm").map fun p => Tag.mk p.1 p.2) := by
  have h1 : dictGet [("autoalarm", "1")] "autoalarm" "not_found" ≠ "not_found" := by decide
  have h2 : process_lambda_alarms (fun _ => true) "fn" [("autoalarm", "1")] "autoalarm"
      ⟨[], [], []⟩ none = Except.ok ⟨none, ⟨[], [], []⟩, [], []⟩ := rfl
  exact ⟨h1, h2, C9_default_alarms_mutated.1 (fun _ => true) "fn" [("autoalarm", "1")]
    "autoalarm" ⟨[], [], []⟩ none ⟨none, ⟨[], [], []⟩, [], []⟩ h1 h2⟩

/-- C9 counterexample: with an activation tag and one AutoAlarm tag,
`process_lambda_alarms` hands back a default_alarms mapping that differs
from the one passed in — the AutoAlarm tag has been appended to the
`AWS/Lambda` list. -/
theorem C9_counterexample :
    (process_lambda_alarms (fun _ => true) "fn"
        [("autoalarm", "1"), ("AutoAlarm-AWS/Lambda-Errors-GreaterThanThreshold-5m-Sum", "1")]
        "autoalarm" ⟨[], [], []⟩ none).map (fun r => r.default_alarms) =
      Except.ok ⟨[], [⟨"AutoAlarm-AWS/Lambda-Errors-GreaterThanThreshold-5m-Sum", "1"⟩], []⟩ ∧
    (⟨[], [⟨"AutoAlarm-AWS/Lambda-Errors-GreaterThanThreshold-5m-Sum", "1"⟩], []⟩ : DefaultAlarms) ≠
      ⟨[], [], []⟩ :=
  ⟨rfl, by decide⟩

lemma flattenPairs_length (l : List (String × String)) :
    (flattenPairs l).length = 2 * l.length := by
  induction l with
  | nil => rfl
  | cons p r ih =>
    simp only [flattenPairs, List.length_cons, ih]
    omega

lemma scanFrom_skip (l : List String) (co : String) (rest : List String) :
    ∀ i, (∀ x ∈ l, valid_comparators.contains x = false) →
    valid_comparators.contains co = true →
    scanFrom (l ++ co :: rest) i = some (i + l.length) := by
  induction l with
  | nil =>
    intro i h hc
    simp only [List.nil_append, scanFrom, hc, if_true]
    simp
  | cons x xs ih =>
    intro i h hc
    have hx : valid_comparators.contains x = false := h x (by simp)
    have hrec := ih (i + 1) (fun y hy => h y (List.mem_cons_of_mem x hy)) hc
    have harith : i + 1 + xs.length = i + (xs.length + 1) := by omega
    simp only [List.cons_append, scanFrom, hx, Bool.false_eq_true, if_false, List.length_cons]
    rw [← harith]
    exact hrec

lemma pairUp_flattenPairs (l : List (String × String)) :
    pairUp (flattenPairs l) = Except.ok l := by
  induction l with
  | nil => rfl
  | cons p r ih => simp [flattenPairs, pairUp, ih, Except.map]

lemma get?_append3 (l : List String) (a b c : String) :
    (l ++ [a, b, c]).get? l.length = some a ∧
    (l ++ [a, b, c]).get? (l.length + 1) = some b ∧
    (l ++ [a, b, c]).get? (l.length + 2) = some c := by
  induction l with
  | nil => exact ⟨rfl, rfl, rfl⟩
  | cons x xs ih => exact ih

/-- C2: for a variable-arity agent-namespace tag key whose tokens after
`[prefix, Namespace, MetricName]` are the interleaving of k dimension
pairs (none of which collides with the comparator enumeration) followed by
a comparator and two more tokens, the scan isolates exactly those k pairs
in encounter order and assigns the three suffix tokens to
ComparisonOperator, Period and Statistic, as witnessed by the put call
issued for that tag. -/
theorem C2_variable_arity_scan :
    ∀ (putOk : String → Bool) (instance_id : String) (cwDims : List (String × String))
      (sns : Option String) (t : Tag) (pre ns mn : String)
      (dims : List (String × String)) (co per st : String),
      splitDash t.Key = pre :: ns :: mn :: (flattenPairs dims ++ [co, per, st]) →
      (∀ x ∈ flattenPairs dims, valid_comparators.contains x = false) →
      valid_comparators.contains co = true →
      pyFloatOk t.Value = true →
      (agentTagBody putOk instance_id cwDims sns t).map (fun r => r.puts.map
          fun c => (c.AlarmName, c.Nspace, c.MetricName, c.ComparisonOperator,
            c.PeriodArg, c.Statistic, c.Dimensions)) =
        Except.ok [((dims.foldl (fun acc p => acc ++ "-" ++ p.1 ++ "-" ++ p.2)
            ("AutoAlarm-" ++ instance_id ++ "-" ++ ns ++ "-" ++ mn))
            ++ "-" ++ co ++ "-" ++ per ++ "-" ++ st,
          ns, mn, co, per, st, cwDims ++ dims)] := by
  intro putOk instance_id cwDims sns t pre ns mn dims co per st hsplit hnc hco hf
  have h1 : (splitDash t.Key).get? 1 = some ns := by rw [hsplit]; rfl
  have h2 : (splitDash t.Key).get? 2 = some mn := by rw [hsplit]; rfl
  have hdrop : (splitDash t.Key).drop 3 = flattenPairs dims ++ [co, per, st] := by
    rw [hsplit]
    rfl
  have hscan : scanFrom (flattenPairs dims ++ [co, per, st]) 3 =
      some (3 + (flattenPairs dims).length) :=
    scanFrom_skip (flattenPairs dims) co [per, st] 3 hnc hco
  have h3 := get?_append3 (flattenPairs dims) co per st
  have hlen := flattenPairs_length dims
  have hgco : (splitDash t.Key).get? (2 * dims.length + 3) = some co := by
    rw [hsplit]
    show (flattenPairs dims ++ [co, per, st]).get? (2 * dims.length) = some co
    rw [← hlen]
    exact h3.1
  have hgper : (splitDash t.Key).get? (2 * dims.length + 4) = some per := by
    rw [hsplit]
    show (flattenPairs dims ++ [co, per, st]).get? (2 * dims.length + 1) = some per
    rw [← hlen]
    exact h3.2.1
  have hgst : (splitDash t.Key).get? (2 * dims.length + 5) = some st := by
    rw [hsplit]
    show (flattenPairs dims ++ [co, per, st]).get? (2 * dims.length + 2) = some st
    rw [← hlen]
    exact h3.2.2
  have harith : 3 + (flattenPairs dims).length - 3 = (flattenPairs dims).length := by omega
  simp only [agentTagBody]
  rw [h1, h2]
  dsimp only
  rw [hdrop, hscan]
  dsimp only
  rw [harith, List.take_left, pairUp_flattenPairs]
  dsimp only
  rw [hgco, hgper, hgst]
  dsimp only
  simp [create_alarm, hf, Except.map]

/-- Witness for C2: the documented example key
`AutoAlarm-CWAgent-mem_used_percent-disk_device-xvda-GreaterThanThreshold-300-Average`
parses to namespace CWAgent, metric mem_used_percent, the single dimension
pair (disk_device, xvda), comparator GreaterThanThreshold, period 300 and
statistic Average. -/
theorem C2_witness :
    splitDash "AutoAlarm-CWAgent-mem_used_percent-disk_device-xvda-GreaterThanThreshold-300-Average" =
      "AutoAlarm" :: "CWAgent" :: "mem_used_percent" ::
        (flattenPairs [("disk_device", "xvda")] ++ ["GreaterThanThreshold", "300", "Average"]) ∧
    (∀ x ∈ flattenPairs [("disk_device", "xvda")], valid_comparators.contains x = false) ∧
    valid_comparators.contains "GreaterThanThreshold" = true ∧
    pyFloatOk "90" = true ∧
    (agentTagBody (fun _ => true) "i-1" [] none
        ⟨"AutoAlarm-CWAgent-mem_used_percent-disk_device-xvda-GreaterThanThreshold-300-Average", "90"⟩).map
      (fun r => r.puts.map fun c => (c.AlarmName, c.Nspace, c.MetricName, c.ComparisonOperator,
        c.PeriodArg, c.Statistic, c.Dimensions)) =
      Except.ok [("AutoAlarm-i-1-CWAgent-mem_used_percent-disk_device-xvda-GreaterThanThreshold-300-Average",
        "CWAgent", "mem_used_percent", "GreaterThanThreshold", "300", "Average",
        [("disk_device", "xvda")])] := by
  have hs : splitDash "AutoAlarm-CWAgent-mem_used_percent-disk_device-xvda-GreaterThanThreshold-300-Average" =
      "AutoAlarm" :: "CWAgent" :: "mem_used_percent" ::
        (flattenPairs [("disk_device", "xvda")] ++ ["GreaterThanThreshold", "300", "Average"]) := rfl
  have hnc : ∀ x ∈ flattenPairs [("disk_device", "xvda")],
      valid_comparators.contains x = false := by decide
  exact ⟨hs, hnc, rfl, rfl,
    C2_variable_arity_scan (fun _ => true) "i-1" [] none
      ⟨"AutoAlarm-CWAgent-mem_used_percent-disk_device-xvda-GreaterThanThreshold-300-Average", "90"⟩
      "AutoAlarm" "CWAgent" "mem_used_percent" [("disk_device", "xvda")]
      "GreaterThanThreshold" "300" "Average" hs hnc rfl rfl⟩

end AutoAlarms